import Mathlib

/-!
Verification of the Novel Nest core against its sources: the hash-based
role router (src/App.tsx), the auth session manager
(src/context/AuthContext.tsx), the mock data-access layer
(src/unnamed/part_002 with src/services/mockData.ts), the remote
data-access layer (src/services/apiService.ts) with the episodes API route
(src/unnamed/part_001), and the comment-threading model.

JavaScript strings that are inspected character by character are modelled
as `List Char`; JavaScript numbers that hold integers are modelled as
`Int`, with `Option` marking `NaN`/`undefined` where the code can produce
them; promise rejection is modelled as the `Except.error` branch.
-/

/-- User roles (the `UserRole` enum of types.ts). -/
inductive Role where
  | reader
  | writer
  | admin
  | developer
deriving DecidableEq

/-- A user account. The presentation-only fields of the source `User`
(`created_at`, `profile_picture`, `bio`) are elided: they are produced
nondeterministically (`new Date()`, `Math.random()` seeds) and no verified
operation reads them. -/
structure User where
  user_id : Int
  username : String
  email : String
  role : Role
deriving DecidableEq

/-- A novel. Only the fields the verified operations read are kept
(`novel_id` and `tags`); cosmetic fields (title, description, cover image,
counters) are elided. -/
structure Novel where
  novel_id : Int
  tags : List String
deriving DecidableEq

/-- An episode, with `release_date` as an epoch-milliseconds instant. The
large `content` string and `title` are elided (no verified operation reads
them). -/
structure Episode where
  episode_id : Int
  novel_id : Int
  is_locked : Bool
  price : Int
  release_date : Int
deriving DecidableEq

/-- The views the `Router` component of src/App.tsx can render. -/
inductive View where
  | login
  | novelDetail (id : Int)
  | readNovel (novelId : Int) (episodeId : Int)
  | home
  | writerDashboard
  | adminDashboard
  | developerDashboard
deriving DecidableEq

/-- Longest run of leading decimal digits, as consumed by JS `parseInt`. -/
def leadingDigits : List Char → List Char
  | [] => []
  | c :: cs => if c.isDigit then c :: leadingDigits cs else []

/-- Numeric value of a run of decimal digits. -/
def digitsToInt (ds : List Char) : Int :=
  ds.foldl (fun a c => a * 10 + ((c.toNat : Int) - 48)) 0

/-- JS `parseInt(s, 10)`: skip leading whitespace, read an optional sign,
then the longest run of decimal digits, ignoring everything after it;
`none` models `NaN` (no digits found). -/
def parseIntJS (s : List Char) : Option Int :=
  match s.dropWhile Char.isWhitespace with
  | '-' :: cs =>
      if leadingDigits cs = [] then none else some (-(digitsToInt (leadingDigits cs)))
  | '+' :: cs =>
      if leadingDigits cs = [] then none else some (digitsToInt (leadingDigits cs))
  | cs =>
      if leadingDigits cs = [] then none else some (digitsToInt (leadingDigits cs))

/-- JS `String.prototype.split('/')` on a character list: `""` splits to
`[""]`, separators at either end produce empty pieces. -/
def splitSlash : List Char → List (List Char)
  | [] => [[]]
  | c :: cs =>
    if c = '/' then [] :: splitSlash cs
    else
      match splitSlash cs with
      | [] => [[c]]
      | piece :: rest => (c :: piece) :: rest

/-- The role switch ending `Router` (src/App.tsx): a fixed landing view per
role. The `default` arm (home feed) is unreachable because the enum is
exhaustive. -/
def roleView (u : User) : View :=
  match u.role with
  | Role.reader => View.home
  | Role.writer => View.writerDashboard
  | Role.admin => View.adminDashboard
  | Role.developer => View.developerDashboard

/-- The `#/read/` branch and the role dispatch of `Router`, reached when
the `#/novel/` branch does not return. `ids[1]` past the end of the JS
split array is `undefined`, whose `parseInt` is `NaN`; we model the missing
piece as `[]`, whose parse is likewise `none`. -/
def readOrRoleView (u : User) (hash : List Char) : View :=
  if "#/read/".toList.isPrefixOf hash then
    let ids := splitSlash (hash.drop 7)
    match parseIntJS (ids.getD 0 []), parseIntJS (ids.getD 1 []) with
    | some novelId, some episodeId => View.readNovel novelId episodeId
    | _, _ => roleView u
  else roleView u

/-- The hash router (`Router` in src/App.tsx): with no identity it renders
the login page before any path matching; otherwise it tries the `#/novel/`
pattern, then `#/read/`, then dispatches on the role.
`hash.replace('#/novel/', '')` removes the first occurrence of the pattern;
under the `startsWith` guard that is exactly dropping the first 8
characters. -/
def router (user : Option User) (hash : List Char) : View :=
  match user with
  | none => View.login
  | some u =>
    if "#/novel/".toList.isPrefixOf hash then
      match parseIntJS (hash.drop 8) with
      | some id => View.novelDetail id
      | none => readOrRoleView u hash
    else readOrRoleView u hash

/-- The four fixture accounts of src/services/mockData.ts `mockUsers`. -/
def mockUsers : List User :=
  [ ⟨1, "ReaderJoe", "reader@test.com", Role.reader⟩
  , ⟨2, "WriterJane", "writer@test.com", Role.writer⟩
  , ⟨3, "AdminAlex", "admin@test.com", Role.admin⟩
  , ⟨4, "DevSam", "dev@test.com", Role.developer⟩ ]

/-- The fixture catalogue `mockNovels`: 12 novels with ids 101..112, all
carrying the same three tags. -/
def mockNovels : List Novel :=
  (List.range 12).map (fun i => ⟨101 + (i : Int), ["Fantasy", "Adventure", "Sci-Fi"]⟩)

/-- `Date.now()` at module initialisation, fixed to one concrete epoch
instant so the fixture is deterministic; every verified property is
insensitive to its value because only date differences matter. -/
def mockNow : Int := 1760140800000

/-- The fixture `mockEpisodes`: five episodes per novel, ids
`novel_id * 100 + i + 1`, release dates stepping up one week per episode
(`now - (5 - i) weeks` for `i = 0..4`). -/
def mockEpisodes : List Episode :=
  mockNovels.flatMap (fun novel =>
    (List.range 5).map (fun i =>
      { episode_id := novel.novel_id * 100 + (i : Int) + 1
        novel_id := novel.novel_id
        is_locked := decide (i > 2)
        price := 10
        release_date := mockNow - ((5 : Int) - (i : Int)) * (1000 * 3600 * 24 * 7) }))

/-- Mock `apiService.login` (src/unnamed/part_002): resolve the first user
whose email matches; for the four role-test emails fall back to the first
user of that role (that inner `find` may be `undefined`, hence the inner
`Option`); otherwise the promise rejects with `Error('User not found')`,
modelled as the `Except.error` branch. The password is ignored. -/
def mockLogin (store : List User) (email : String) : Except String (Option User) :=
  match store.find? (fun u => u.email == email) with
  | some u => Except.ok (some u)
  | none =>
    if email == "reader@test.com" then
      Except.ok (store.find? (fun u => u.role == Role.reader))
    else if email == "writer@test.com" then
      Except.ok (store.find? (fun u => u.role == Role.writer))
    else if email == "admin@test.com" then
      Except.ok (store.find? (fun u => u.role == Role.admin))
    else if email == "dev@test.com" then
      Except.ok (store.find? (fun u => u.role == Role.developer))
    else Except.error "User not found"

/-- Mock `apiService.signup`: builds a user with id
`Math.max(...ids) + 1` and role Reader, pushes it onto the store, and
resolves it — with no uniqueness check of any kind. `Math.max()` over an
empty array is `-Infinity`; that degenerate empty-store case is modelled as
`none` (the fixture store is never empty). The returned pair is the new
user together with the store after the push. -/
def mockSignup (store : List User) (username email : String) :
    Option (User × List User) :=
  match (store.map (fun u => u.user_id)).max? with
  | none => none
  | some m =>
    some (⟨m + 1, username, email, Role.reader⟩,
          store ++ [⟨m + 1, username, email, Role.reader⟩])

/-- Mock `getEpisodesByNovelId`: a filter of the fixture, with no sort. -/
def mockGetEpisodesByNovelId (novelId : Int) : List Episode :=
  mockEpisodes.filter (fun e => e.novel_id == novelId)

/-- Mock `getEpisode`: the first fixture episode matching both the novel id
and the episode id. -/
def mockGetEpisode (novelId episodeId : Int) : Option Episode :=
  mockEpisodes.find? (fun e => e.novel_id == novelId && e.episode_id == episodeId)

/-- Mock `getFantasyNovels`: `mockNovels.slice(6, 12)`. -/
def mockGetFantasyNovels : List Novel :=
  (mockNovels.take 12).drop 6

/-- Sort ascending by `release_date` — the model of prisma's
`orderBy: { release_date: 'asc' }` in the episodes route. -/
def sortByReleaseDate (l : List Episode) : List Episode :=
  l.insertionSort (fun a b => a.release_date ≤ b.release_date)

instance : IsTotal Episode (fun a b => a.release_date ≤ b.release_date) :=
  ⟨fun a b => Int.le_total a.release_date b.release_date⟩

instance : IsTrans Episode (fun a b => a.release_date ≤ b.release_date) :=
  ⟨fun _ _ _ h1 h2 => Int.le_trans h1 h2⟩

/-- The prisma query at the heart of the episodes route
(src/unnamed/part_001): rows of the episodes table whose `novel_id` equals
the given id, ordered by `release_date` ascending. -/
def prismaEpisodesByNovel (db : List Episode) (novelId : Int) : List Episode :=
  sortByReleaseDate (db.filter (fun e => e.novel_id == novelId))

/-- The `pages/api/novels/[novelId]/episodes` handler: a non-GET method is
refused with status 405; the `novelId` query segment goes through
`parseInt`, and a `NaN` id matches no database row. The 500 branch (the
backing store throwing) is the external store's outage, outside this
model. -/
def episodesHandler (method : String) (db : List Episode) (novelId : List Char) :
    Except (Nat × String) (List Episode) :=
  if method != "GET" then Except.error (405, "Method not allowed")
  else
    match parseIntJS novelId with
    | some id => Except.ok (prismaEpisodesByNovel db id)
    | none => Except.ok []

/-- Remote `apiService.getEpisode` (src/services/apiService.ts): fetch the
novel's episodes from the route and take the first with the requested
episode id. The fetch URL carries the numeric id into the route's
`novelId` segment, so the route's query runs at the same id. -/
def apiGetEpisode (db : List Episode) (novelId episodeId : Int) : Option Episode :=
  (prismaEpisodesByNovel db novelId).find? (fun e => e.episode_id == episodeId)

/-- The JSON body as far as the code reads it: `fetchAPI`'s error path only
looks at `errorData.error`; `none` models a missing field. -/
structure JsonBody where
  error : Option String

/-- A resolved HTTP response as `fetchAPI` consumes it: the `ok` flag, the
status, and the outcome of `response.json()` — a parsed body, or the raw
parse exception the json promise rejects with. -/
structure JsResponse where
  ok : Bool
  status : Nat
  body : Except String JsonBody

/-- The outcome of `fetch` itself: the promise rejects (network-level
failure), or resolves to a response. -/
inductive FetchOutcome where
  | reject (e : String)
  | resolve (r : JsResponse)

/-- What escapes `fetchAPI` as a JS exception: a raw exception propagated
unchanged, or the `new Error(msg)` fetchAPI itself throws. -/
inductive JsError where
  | raw (e : String)
  | thrown (msg : String)

/-- JS `a || b` on the error-message field: `undefined` (and the falsy
empty string) select the fallback. -/
def jsOrElse (a : Option String) (b : String) : String :=
  match a with
  | some s => if s = "" then b else s
  | none => b

/-- `fetchAPI` of src/services/apiService.ts. There is no try/catch: a
rejection of `fetch` and a rejection of `response.json()` both propagate
raw; a non-ok response whose body parses is converted into a thrown
`Error(errorData.error || 'API call failed with status N')`. -/
def fetchAPI (outcome : FetchOutcome) : Except JsError JsonBody :=
  match outcome with
  | FetchOutcome.reject e => Except.error (JsError.raw e)
  | FetchOutcome.resolve r =>
    if r.ok then
      match r.body with
      | Except.ok v => Except.ok v
      | Except.error e => Except.error (JsError.raw e)
    else
      match r.body with
      | Except.ok errorData =>
          Except.error (JsError.thrown (jsOrElse errorData.error
            ("API call failed with status " ++ toString r.status)))
      | Except.error e => Except.error (JsError.raw e)

/-- The Auth Session Manager's state: the `currentUser` cell of
`AuthProvider` (src/context/AuthContext.tsx) together with the
`sessionStorage['user']` entry, stored as the serialized user. -/
structure AuthState where
  currentUser : Option User
  storedUser : Option User
deriving DecidableEq

/-- `AuthProvider.login`: await the DAL call inside try/catch. A resolved
user is written to both the state cell and session storage and returned; a
null resolution touches nothing and is returned as-is (null); a rejection
is caught, logged, and converted to a null return — nothing escapes the
boundary. The DAL outcome is the same shape `mockLogin` produces. -/
def authLogin (st : AuthState) (dal : Except String (Option User)) :
    AuthState × Option User :=
  match dal with
  | Except.ok (some u) => ({ currentUser := some u, storedUser := some u }, some u)
  | Except.ok none => (st, none)
  | Except.error _ => (st, none)

/-- A comment as consumed by the threading transform: its id, the episode
it belongs to, its text, and the optional parent reference. -/
structure Comment where
  comment_id : Int
  episode_id : Int
  content : String
  parent_comment_id : Option Int
deriving DecidableEq

/-- A threaded comment: a comment with its attached replies. -/
inductive TComment where
  | mk (base : Comment) (replies : List TComment)

/-- Modelled from the spec: the Comment Threading Model (spec §4.4) has no
source file under src/ (it lives in a UI component not included in the
repository snapshot). Following the spec's words: the direct children of
the comment with id `parentId` are the input comments whose
`parent_comment_id` matches it, in input order, each recursively threaded.
The recursion is bounded by a fuel argument; the input length is enough
fuel for any acyclic input. -/
def buildReplies (all : List Comment) : Nat → Int → List TComment
  | 0, _ => []
  | fuel + 1, parentId =>
    (all.filter (fun c => c.parent_comment_id == some parentId)).map
      (fun c => TComment.mk c (buildReplies all fuel c.comment_id))

/-- Modelled from the spec: roots are the comments with no
`parent_comment_id`; each root gets its recursively attached replies.
Orphaned children — parent id present but matching no input comment — are
attached nowhere. -/
def threadComments (all : List Comment) : List TComment :=
  (all.filter (fun c => c.parent_comment_id == none)).map
    (fun c => TComment.mk c (buildReplies all all.length c.comment_id))

mutual

/-- Every comment occurring in a threaded tree, at any depth. -/
def basesT : TComment → List Comment
  | TComment.mk b rs => b :: basesL rs

/-- Every comment occurring in a forest, at any depth. -/
def basesL : List TComment → List Comment
  | [] => []
  | t :: ts => basesT t ++ basesL ts

end

theorem isPrefixOf_exists {l₁ l₂ : List Char} (h : l₁.isPrefixOf l₂ = true) :
    ∃ t, l₂ = l₁ ++ t := by
  induction l₁ generalizing l₂ with
  | nil => exact ⟨l₂, rfl⟩
  | cons a as ih =>
    cases l₂ with
    | nil => simp [List.isPrefixOf] at h
    | cons b bs =>
      simp only [List.isPrefixOf, Bool.and_eq_true, beq_iff_eq] at h
      obtain ⟨rfl, h2⟩ := h
      obtain ⟨t, rfl⟩ := ih h2
      exact ⟨t, rfl⟩

/-- C1: with no identity present, the router renders the unauthenticated
login view for every navigational path, before any path-pattern matching is
attempted. -/
theorem c1_unauthenticated_always_login (hash : List Char) :
    router none hash = View.login := rfl

/-- C4 counterexample: the id segment `5x` of `#/novel/5x` is not a
well-formed positive integer, yet with an identity present the router
renders the novel-detail view for id 5 (JS `parseInt` stops at the first
non-digit) instead of falling through to the role-based dispatch. -/
theorem c4_counterexample :
    router (some ⟨1, "ReaderJoe", "reader@test.com", Role.reader⟩) "#/novel/5x".toList
        = View.novelDetail 5
    ∧ View.novelDetail 5 ≠ roleView ⟨1, "ReaderJoe", "reader@test.com", Role.reader⟩ :=
  ⟨rfl, by decide⟩

theorem roleView_ne_novelDetail (u : User) (k : Int) :
    roleView u ≠ View.novelDetail k := by
  rcases u with ⟨i, n, e, r⟩
  cases r <;> simp [roleView]

theorem readOrRoleView_ne_novelDetail (u : User) (hash : List Char) (k : Int) :
    readOrRoleView u hash ≠ View.novelDetail k := by
  unfold readOrRoleView
  split
  · dsimp only
    split
    · exact fun h => View.noConfusion h
    · exact roleView_ne_novelDetail u k
  · exact roleView_ne_novelDetail u k

/-- C4 amended: with an identity present, the router renders the
novel-detail view for id k exactly when the path starts with `#/novel/` and
JS `parseInt` of the remainder yields k — an optional sign followed by
leading digits, with trailing garbage ignored, so k may be negative or come
from a malformed segment such as `5x`. Only when `parseInt` yields `NaN`
(no leading integer at all) does the path fall through to the role-based
dispatch, without error; paths not starting with `#/novel/` never render a
novel-detail view. -/
theorem c4_amended_router_novel_branch (u : User) (hash : List Char) :
    (∀ k : Int, "#/novel/".toList.isPrefixOf hash = true →
        parseIntJS (hash.drop 8) = some k →
        router (some u) hash = View.novelDetail k)
    ∧ ("#/novel/".toList.isPrefixOf hash = true →
        parseIntJS (hash.drop 8) = none →
        router (some u) hash = roleView u)
    ∧ ("#/novel/".toList.isPrefixOf hash = false →
        ∀ k : Int, router (some u) hash ≠ View.novelDetail k) := by
  refine ⟨?_, ?_, ?_⟩
  · intro k hpre hparse
    simp only [router, hpre, if_true, hparse]
  · intro hpre hparse
    obtain ⟨t, rfl⟩ := isPrefixOf_exists hpre
    simp only [router, hpre, if_true, hparse]
    rfl
  · intro hpre k
    simp only [router, hpre, Bool.false_eq_true, if_false]
    exact readOrRoleView_ne_novelDetail u hash k

/-- Witness for C4's amended theorem at concrete inputs: a negative id and
a digitless id segment. -/
theorem c4_amended_witness :
    router (some ⟨1, "ReaderJoe", "reader@test.com", Role.reader⟩) "#/novel/-7".toList
        = View.novelDetail (-7)
    ∧ router (some ⟨1, "ReaderJoe", "reader@test.com", Role.reader⟩) "#/novel/x".toList
        = View.home := by
  constructor
  · exact (c4_amended_router_novel_branch ⟨1, "ReaderJoe", "reader@test.com", Role.reader⟩
      "#/novel/-7".toList).1 (-7) (by decide) (by decide)
  · exact (c4_amended_router_novel_branch ⟨1, "ReaderJoe", "reader@test.com", Role.reader⟩
      "#/novel/x".toList).2.1 (by decide) (by decide)

/-- Episode ids are unique across the fixture. -/
theorem mockEpisodes_ids_nodup :
    mockEpisodes.Pairwise (fun a b => a.episode_id ≠ b.episode_id) := by decide

/-- Within one novel the fixture's episodes appear in ascending
release-date order (the generator steps the date up by a week per
episode). -/
theorem mockEpisodes_block_sorted :
    mockEpisodes.Pairwise
      (fun a b => a.novel_id = b.novel_id → a.release_date ≤ b.release_date) := by
  decide

/-- C2 (mock half, positive direction): a found episode matches both ids. -/
theorem mockGetEpisode_some_matches (novelId episodeId : Int) (ep : Episode)
    (h : mockGetEpisode novelId episodeId = some ep) :
    ep.novel_id = novelId ∧ ep.episode_id = episodeId := by
  have hp := List.find?_some h
  simp only [Bool.and_eq_true, beq_iff_eq] at hp
  exact hp

/-- C2: `getEpisode` returns an episode only if it belongs to the given
novel; when the episode id exists but belongs to a different novel the
result is absent, not an error — for the mock DAL (whose fixture has
unique episode ids) and for the remote DAL composed with the episodes
route (given unique ids in the backing table, which the schema's primary
key guarantees). -/
theorem c2_getEpisode_scoped_to_novel :
    (∀ (novelId episodeId : Int) (ep : Episode),
        mockGetEpisode novelId episodeId = some ep →
        ep.novel_id = novelId ∧ ep.episode_id = episodeId)
    ∧ (∀ (novelId episodeId : Int) (ep : Episode),
        ep ∈ mockEpisodes → ep.episode_id = episodeId → ep.novel_id ≠ novelId →
        mockGetEpisode novelId episodeId = none)
    ∧ (∀ (db : List Episode) (novelId episodeId : Int) (ep : Episode),
        apiGetEpisode db novelId episodeId = some ep →
        ep.novel_id = novelId ∧ ep.episode_id = episodeId)
    ∧ (∀ (db : List Episode) (novelId episodeId : Int),
        (∀ ep ∈ db, ep.episode_id = episodeId → ep.novel_id ≠ novelId) →
        apiGetEpisode db novelId episodeId = none) := by
  refine ⟨mockGetEpisode_some_matches, ?_, ?_, ?_⟩
  · intro novelId episodeId ep hmem hid hnid
    refine List.find?_eq_none.mpr ?_
    intro x hx
    simp only [Bool.and_eq_true, beq_iff_eq, not_and]
    by_cases hxe : x = ep
    · subst hxe
      intro hn
      exact absurd hn hnid
    · intro _
      have hsym : Symmetric (fun a b : Episode => a.episode_id ≠ b.episode_id) :=
        fun a b h he => h he.symm
      have hne := mockEpisodes_ids_nodup.forall hsym hx hmem hxe
      rw [hid] at hne
      exact hne
  · intro db novelId episodeId ep h
    have hp := List.find?_some h
    have hmem := List.mem_of_find?_eq_some h
    rw [beq_iff_eq] at hp
    refine ⟨?_, hp⟩
    unfold prismaEpisodesByNovel sortByReleaseDate at hmem
    rw [List.mem_insertionSort] at hmem
    simpa using List.of_mem_filter hmem
  · intro db novelId episodeId hno
    refine List.find?_eq_none.mpr ?_
    intro x hx
    unfold prismaEpisodesByNovel sortByReleaseDate at hx
    rw [List.mem_insertionSort] at hx
    have hxdb := List.mem_of_mem_filter hx
    have hxn : x.novel_id = novelId := by simpa using List.of_mem_filter hx
    simp only [beq_iff_eq]
    intro hxe
    exact (hno x hxdb hxe) hxn

/-- Witness for C2 at concrete inputs: episode 10101 of novel 101 in the
fixture, the same episode requested under novel 102, and a one-row
database probed through the route composition. -/
theorem c2_witness :
    (Episode.novel_id ⟨10101, 101, false, 10, 1757116800000⟩ = 101
      ∧ Episode.episode_id ⟨10101, 101, false, 10, 1757116800000⟩ = 10101)
    ∧ mockGetEpisode 102 10101 = none
    ∧ (Episode.novel_id ⟨7, 1, false, 0, 0⟩ = 1
      ∧ Episode.episode_id ⟨7, 1, false, 0, 0⟩ = 7)
    ∧ apiGetEpisode [⟨7, 2, false, 0, 0⟩] 1 7 = none := by
  refine ⟨?_, ?_, ?_, ?_⟩
  · exact c2_getEpisode_scoped_to_novel.1 101 10101 ⟨10101, 101, false, 10, 1757116800000⟩
      (by decide)
  · exact c2_getEpisode_scoped_to_novel.2.1 102 10101 ⟨10101, 101, false, 10, 1757116800000⟩
      (by decide) (by decide) (by decide)
  · exact c2_getEpisode_scoped_to_novel.2.2.1 [⟨7, 1, false, 0, 0⟩] 1 7 ⟨7, 1, false, 0, 0⟩
      (by decide)
  · exact c2_getEpisode_scoped_to_novel.2.2.2 [⟨7, 2, false, 0, 0⟩] 1 7 (by decide)

/-- C3 counterexample: both the username and the email handed to signup
already exist in the mock store, yet signup succeeds — it returns a new
user (id 5) and grows the store — instead of failing with a ConflictError
and leaving the store unchanged. -/
theorem c3_counterexample :
    (∃ u ∈ mockUsers, u.username = "ReaderJoe" ∧ u.email = "reader@test.com")
    ∧ mockSignup mockUsers "ReaderJoe" "reader@test.com"
        = some (⟨5, "ReaderJoe", "reader@test.com", Role.reader⟩,
                mockUsers ++ [⟨5, "ReaderJoe", "reader@test.com", Role.reader⟩]) := by
  constructor
  · exact ⟨⟨1, "ReaderJoe", "reader@test.com", Role.reader⟩, by decide, rfl, rfl⟩
  · decide

/-- C3 amended: the mock signup performs no uniqueness check at all — for
every store holding a maximal user id m, and every username and email,
including ones already present, signup succeeds and appends exactly one new
Reader user with id m + 1, leaving every existing user unmodified. -/
theorem c3_amended_signup_always_appends (store : List User)
    (username email : String) (m : Int)
    (h : (store.map (fun u => u.user_id)).max? = some m) :
    mockSignup store username email
      = some (⟨m + 1, username, email, Role.reader⟩,
              store ++ [⟨m + 1, username, email, Role.reader⟩]) := by
  unfold mockSignup
  rw [h]

/-- Witness for C3's amended theorem on the fixture store. -/
theorem c3_amended_witness :
    mockSignup mockUsers "WriterJane" "writer@test.com"
      = some (⟨5, "WriterJane", "writer@test.com", Role.reader⟩,
              mockUsers ++ [⟨5, "WriterJane", "writer@test.com", Role.reader⟩]) :=
  c3_amended_signup_always_appends mockUsers "WriterJane" "writer@test.com" 4 (by decide)

/-- C8: every novel returned by the mock getFantasyNovels — the slice
6..12 of the catalogue — has "Fantasy" among its tags. -/
theorem c8_fantasy_tagged :
    ∀ n ∈ mockGetFantasyNovels, "Fantasy" ∈ n.tags := by decide

/-- Witness for C8 at the first returned novel (id 107). -/
theorem c8_witness :
    "Fantasy" ∈ (Novel.mk 107 ["Fantasy", "Adventure", "Sci-Fi"]).tags :=
  c8_fantasy_tagged ⟨107, ["Fantasy", "Adventure", "Sci-Fi"]⟩ (by decide)

/-- C10: in the mock DAL, signup with an email not already in the store,
followed by login with that email (the mock ignores passwords), resolves
exactly the user signup created: the new user is appended, so the login
scan finds it and no role-test fallback fires. -/
theorem c10_signup_login_roundtrip (store : List User) (username email : String)
    (u : User) (store' : List User)
    (hfresh : ∀ v ∈ store, v.email ≠ email)
    (hsign : mockSignup store username email = some (u, store')) :
    mockLogin store' email = Except.ok (some u) := by
  unfold mockSignup at hsign
  cases hmax : (store.map (fun v => v.user_id)).max? with
  | none => rw [hmax] at hsign; cases hsign
  | some m =>
    rw [hmax] at hsign
    simp only [Option.some.injEq, Prod.mk.injEq] at hsign
    obtain ⟨hu, hs⟩ := hsign
    subst hs
    rw [← hu]
    have hfind : (store ++ [(⟨m + 1, username, email, Role.reader⟩ : User)]).find?
        (fun v => v.email == email) = some ⟨m + 1, username, email, Role.reader⟩ := by
      rw [List.find?_append]
      have h1 : store.find? (fun v => v.email == email) = none :=
        List.find?_eq_none.mpr (fun v hv => by simpa using hfresh v hv)
      rw [h1]
      simp [List.find?]
    unfold mockLogin
    rw [hfind]

/-- Witness for C10: a fresh account on the fixture store. -/
theorem c10_witness :
    mockLogin (mockUsers ++ [⟨5, "Newbie", "new@test.example", Role.reader⟩])
        "new@test.example"
      = Except.ok (some ⟨5, "Newbie", "new@test.example", Role.reader⟩) :=
  c10_signup_login_roundtrip mockUsers "Newbie" "new@test.example"
    ⟨5, "Newbie", "new@test.example", Role.reader⟩
    (mockUsers ++ [⟨5, "Newbie", "new@test.example", Role.reader⟩])
    (by decide) (by decide)

/-- C6: episodes listed for a novel come sorted ascending by release date,
and all belong to that novel — for the mock DAL (whose unsorted filter is
saved by the fixture's blockwise-ascending generator) and for the episodes
API route for any backing table (the route sorts). -/
theorem c6_episodes_sorted_and_scoped :
    (∀ novelId : Int,
        (mockGetEpisodesByNovelId novelId).Pairwise
          (fun a b => a.release_date ≤ b.release_date)
        ∧ ∀ e ∈ mockGetEpisodesByNovelId novelId, e.novel_id = novelId)
    ∧ (∀ (method : String) (db : List Episode) (q : List Char)
          (eps : List Episode) (novelId : Int),
        episodesHandler method db q = Except.ok eps →
        parseIntJS q = some novelId →
        eps.Pairwise (fun a b => a.release_date ≤ b.release_date)
        ∧ ∀ e ∈ eps, e.novel_id = novelId) := by
  constructor
  · intro novelId
    constructor
    · have h2 : (mockEpisodes.filter (fun e => e.novel_id == novelId)).Pairwise
          (fun a b => a.novel_id = b.novel_id → a.release_date ≤ b.release_date) :=
        mockEpisodes_block_sorted.sublist (List.filter_sublist _)
      refine h2.imp_of_mem ?_
      intro a b ha hb hab
      have ha' : a.novel_id = novelId := by simpa using List.of_mem_filter ha
      have hb' : b.novel_id = novelId := by simpa using List.of_mem_filter hb
      exact hab (ha'.trans hb'.symm)
    · intro e he
      simpa using List.of_mem_filter he
  · intro method db q eps novelId h hq
    unfold episodesHandler at h
    split at h
    · cases h
    · rw [hq] at h
      simp only [Except.ok.injEq] at h
      subst h
      constructor
      · exact List.sorted_insertionSort _ _
      · intro e he
        unfold prismaEpisodesByNovel sortByReleaseDate at he
        rw [List.mem_insertionSort] at he
        simpa using List.of_mem_filter he

/-- Witness for C6's route half: a two-row table queried with id 1 comes
back re-sorted and scoped. -/
theorem c6_witness :
    ([⟨2, 1, false, 0, 3⟩, ⟨1, 1, false, 0, 5⟩] : List Episode).Pairwise
      (fun a b => a.release_date ≤ b.release_date)
    ∧ ∀ e ∈ ([⟨2, 1, false, 0, 3⟩, ⟨1, 1, false, 0, 5⟩] : List Episode),
        e.novel_id = 1 :=
  c6_episodes_sorted_and_scoped.2 "GET" [⟨1, 1, false, 0, 5⟩, ⟨2, 1, false, 0, 3⟩]
    "1".toList [⟨2, 1, false, 0, 3⟩, ⟨1, 1, false, 0, 5⟩] 1 rfl (by decide)

/-- C7 counterexample: a network-level fetch rejection crosses fetchAPI's
boundary raw — it is not normalized into a TransportError or any other
error kind (no such kinds exist in the code). -/
theorem c7_counterexample :
    fetchAPI (FetchOutcome.reject "TypeError: Failed to fetch")
      = Except.error (JsError.raw "TypeError: Failed to fetch") := rfl

/-- C7 amended: fetchAPI performs no failure normalization: a fetch
rejection propagates raw, a JSON-parse failure of any response body (error
or success) propagates raw, and only a non-ok response with a parseable
body is converted — into a generic thrown Error carrying the body's error
field, with a status-text fallback when that field is absent or empty. A
parseable ok response resolves with its body. -/
theorem c7_amended_fetchAPI_error_behavior :
    (∀ e, fetchAPI (FetchOutcome.reject e) = Except.error (JsError.raw e))
    ∧ (∀ (ok : Bool) (status : Nat) (e : String),
        fetchAPI (FetchOutcome.resolve ⟨ok, status, Except.error e⟩)
          = Except.error (JsError.raw e))
    ∧ (∀ (status : Nat) (v : JsonBody),
        fetchAPI (FetchOutcome.resolve ⟨true, status, Except.ok v⟩) = Except.ok v)
    ∧ (∀ (status : Nat) (v : JsonBody),
        fetchAPI (FetchOutcome.resolve ⟨false, status, Except.ok v⟩)
          = Except.error (JsError.thrown (jsOrElse v.error
              ("API call failed with status " ++ toString status)))) :=
  ⟨fun _ => rfl,
   fun ok _ _ => by cases ok <;> rfl,
   fun _ _ => rfl,
   fun _ _ => rfl⟩

/-- C5: whenever the DAL login fails — the call rejects (transport or
domain error) or resolves with no user — the session manager leaves
`currentUser` and the persisted session-storage entry unchanged and hands
the caller null; the total model function returning normally in every case
is the image of "no exception propagates past the boundary". -/
theorem c5_login_failure_leaves_state (st : AuthState)
    (dal : Except String (Option User))
    (hfail : ∀ u : User, dal ≠ Except.ok (some u)) :
    authLogin st dal = (st, none) := by
  match dal with
  | Except.ok (some u) => exact absurd rfl (hfail u)
  | Except.ok none => rfl
  | Except.error e => rfl

/-- Witness for C5: the mock DAL's rejection with `User not found` leaves
an empty session empty and returns null. -/
theorem c5_witness :
    authLogin ⟨none, none⟩ (Except.error "User not found") = (⟨none, none⟩, none) :=
  c5_login_failure_leaves_state ⟨none, none⟩ (Except.error "User not found")
    (fun _ h => Except.noConfusion h)

theorem mem_basesL_iff (c : Comment) (ts : List TComment) :
    c ∈ basesL ts ↔ ∃ t ∈ ts, c ∈ basesT t := by
  induction ts with
  | nil => simp [basesL]
  | cons t ts ih => simp [basesL, ih]

/-- Every comment placed anywhere under `buildReplies all fuel pid` either
has parent id `pid` or has the id of some input comment as its parent. -/
theorem buildReplies_parent_chain (all : List Comment) :
    ∀ (fuel : Nat) (pid : Int) (c : Comment) (t : TComment),
      t ∈ buildReplies all fuel pid → c ∈ basesT t →
      c.parent_comment_id = some pid
      ∨ ∃ d ∈ all, c.parent_comment_id = some d.comment_id := by
  intro fuel
  induction fuel with
  | zero =>
    intro pid c t ht
    simp [buildReplies] at ht
  | succ n ih =>
    intro pid c t ht hc
    simp only [buildReplies, List.mem_map] at ht
    obtain ⟨c', hc', rfl⟩ := ht
    simp only [basesT, List.mem_cons] at hc
    rcases hc with rfl | hmem
    · left
      simpa using List.of_mem_filter hc'
    · obtain ⟨t', ht', hct'⟩ := (mem_basesL_iff c _).mp hmem
      rcases ih c'.comment_id c t' ht' hct' with h | h
      · exact Or.inr ⟨c', List.mem_of_mem_filter hc', h⟩
      · exact Or.inr h

/-- C9: a child comment whose `parent_comment_id` matches the id of no
comment in the input list appears nowhere in the output forest — neither
as a root nor as a reply at any depth. -/
theorem c9_orphans_dropped (all : List Comment) (c : Comment) (p : Int)
    (hp : c.parent_comment_id = some p)
    (horphan : ∀ d ∈ all, d.comment_id ≠ p) :
    ∀ t ∈ threadComments all, c ∉ basesT t := by
  intro t ht hc
  simp only [threadComments, List.mem_map] at ht
  obtain ⟨r, hr, rfl⟩ := ht
  simp only [basesT, List.mem_cons] at hc
  rcases hc with rfl | hmem
  · have hroot := List.of_mem_filter hr
    simp [hp] at hroot
  · obtain ⟨t', ht', hct'⟩ := (mem_basesL_iff c _).mp hmem
    rcases buildReplies_parent_chain all all.length r.comment_id c t' ht' hct' with h | h
    · rw [hp] at h
      injection h with h'
      exact horphan r (List.mem_of_mem_filter hr) h'.symm
    · obtain ⟨d, hd, hpd⟩ := h
      rw [hp] at hpd
      injection hpd with h'
      exact horphan d hd h'.symm

/-- Witness for C9: an input with one root and one orphan (parent id 99
matches nothing); the orphan appears nowhere in the single output tree. -/
theorem c9_witness :
    (⟨5, 10, "orphan", some 99⟩ : Comment)
      ∉ basesT (TComment.mk ⟨1, 10, "root", none⟩ []) := by
  have h := c9_orphans_dropped
    [⟨1, 10, "root", none⟩, ⟨5, 10, "orphan", some 99⟩]
    ⟨5, 10, "orphan", some 99⟩ 99 rfl (by decide)
  exact h (TComment.mk ⟨1, 10, "root", none⟩ [])
    (show TComment.mk ⟨1, 10, "root", none⟩ []
        ∈ threadComments [⟨1, 10, "root", none⟩, ⟨5, 10, "orphan", some 99⟩]
      from List.mem_singleton.mpr rfl)
